import Mathlib

/-!
Shallow embedding of the Cinder-FileMonitor bridging layer
(src/include/filemonitor/BasicFileMonitorService.h), for checking its
natural-language specification against the code.

The platform backend (FileMonitorImpl) is an external collaborator whose
headers are not part of the core source; where its behaviour is needed it is
modelled from the spec's Backend Contract and marked as such. Filesystem
queries (boost::filesystem) are likewise external and enter as inputs.
A C++ throw is embedded as an Except.error carrying the exception kind and
the what() message.
-/

/-- Error codes surfaced through the monitor channels. `operationAborted`
models boost::asio::error::operation_aborted, `success` the default (zero)
boost::system::error_code, `backendError` any other backend-defined code. -/
inductive ErrorCode
  | success
  | operationAborted
  | backendError (code : Nat)
  deriving DecidableEq

/-- Kinds of file events. Modelled from the spec: the event type lives in the
platform implementation headers, outside the core source; the spec lists the
kinds added, removed, modified, rename-from, rename-to and error/overflow. -/
inductive EventKind
  | added
  | removed
  | modified
  | renameOld
  | renameNew
  | overflowed
  deriving DecidableEq

/-- Modelled from the spec: an Event carries a handle or path, a kind and an
optional error; FileMonitorEvent is defined in the platform implementation
headers, outside the core source. -/
structure FileMonitorEvent where
  handle : Nat
  path : String
  kind : EventKind
  errorInfo : Option Nat
  deriving DecidableEq

/-- Default-constructed FileMonitorEvent(), as posted on the abort branch of
MonitorOperation::operator(). -/
def emptyEvent : FileMonitorEvent :=
  { handle := 0, path := "", kind := EventKind.added, errorInfo := none }

/-- Calls made against the backend instance (the Backend Contract surface). -/
inductive BackendCall
  | addPath (path regexMatch : String)
  | addFile (path : String)
  | remove (id : Nat)
  | popFrontEvent
  | destroy
  deriving DecidableEq

/-- Modelled from the spec: state of one backend instance (Backend Contract,
external to the core source): a destroyed flag, the pending event queue with
backend-chosen error codes, the monotonic handle counter (a 64-bit counter in
the spec; no claim exercises overflow), the registered watches, and a log of
the contract calls made against it. -/
structure BackendState where
  destroyed : Bool
  events : List (FileMonitorEvent × ErrorCode)
  nextHandle : Nat
  watches : List (Nat × String)
  calls : List BackendCall
  deriving DecidableEq

/-- Modelled from the spec: Backend Contract addPath registers a watch under
the directory and returns a fresh monotonically assigned handle. -/
def BackendState.addPath (b : BackendState) (path regexMatch : String) :
    Nat × BackendState :=
  (b.nextHandle,
    { b with nextHandle := b.nextHandle + 1,
             watches := b.watches ++ [(b.nextHandle, path)],
             calls := b.calls ++ [BackendCall.addPath path regexMatch] })

/-- Modelled from the spec: Backend Contract addFile registers a watch on the
file and returns a fresh monotonically assigned handle. -/
def BackendState.addFile (b : BackendState) (path : String) :
    Nat × BackendState :=
  (b.nextHandle,
    { b with nextHandle := b.nextHandle + 1,
             watches := b.watches ++ [(b.nextHandle, path)],
             calls := b.calls ++ [BackendCall.addFile path] })

/-- Modelled from the spec: Backend Contract popFrontEvent blocks until an
event is available or the backend is destroyed; on a destroyed backend it
returns an Aborted error at once. none models "still blocked" (alive backend,
no event yet). Each returning call is logged. -/
def BackendState.popFrontEvent (b : BackendState) :
    Option ((FileMonitorEvent × ErrorCode) × BackendState) :=
  if b.destroyed then
    some ((emptyEvent, ErrorCode.operationAborted),
      { b with calls := b.calls ++ [BackendCall.popFrontEvent] })
  else
    match b.events with
    | [] => none
    | e :: rest =>
      some (e, { b with events := rest,
                        calls := b.calls ++ [BackendCall.popFrontEvent] })

/-- Modelled from the spec: Backend Contract destroy sets the destroyed flag,
which wakes any thread blocked in popFrontEvent. The call is logged. -/
def BackendState.destroy (b : BackendState) : BackendState :=
  { b with destroyed := true, calls := b.calls ++ [BackendCall.destroy] }

/-- Results of the boost::filesystem queries the service makes about a path
(the filesystem is external input): is_directory(p) and is_regular_file(p)
(both follow symlinks), is_symlink(p), and read_symlink(p). -/
structure PathStatus where
  isDirectory : Bool
  isRegularFile : Bool
  isSymlink : Bool
  symlinkTarget : String
  deriving DecidableEq

/-- Message text of the std::invalid_argument thrown when a registration
target fails the directory / regular-file precondition. The source uses this
exact text in both addPath (header line 93) and addFile (header line 104). -/
def invalidEntryMessage (path : String) : String :=
  "boost::asio::BasicFileMonitorService::addFile: \"" ++ path ++
    "\" is not a valid file or directory entry"

/-- Message text of the std::invalid_argument thrown by addFile's symlink
check (header line 109). -/
def unresolvedSymlinkMessage (path : String) : String :=
  "boost::asio::BasicFileMonitorService::addFile: \"" ++ path ++
    "\" this path is a symlink and must be resolved"

/-- Kind of C++ exception thrown. Both validation failures in the source
throw std::invalid_argument; they differ in message text. -/
inductive CppExceptionKind
  | invalidArgument
  deriving DecidableEq

/-- A synchronously thrown registration error as visible to the caller:
exception kind plus what() message. -/
structure ThrownError where
  kind : CppExceptionKind
  message : String
  deriving DecidableEq

/-- The InvalidPath error of the spec's taxonomy: the std::invalid_argument
thrown by the directory / regular-file precondition checks. -/
def invalidPathError (path : String) : ThrownError :=
  ⟨CppExceptionKind.invalidArgument, invalidEntryMessage path⟩

/-- The UnresolvedSymlink error of the spec's taxonomy: the
std::invalid_argument thrown by addFile's symlink check. -/
def unresolvedSymlinkError (path : String) : ThrownError :=
  ⟨CppExceptionKind.invalidArgument, unresolvedSymlinkMessage path⟩

/-- Shallow embedding of BasicFileMonitorService::addPath (header lines
89-98): throw InvalidPath if the path is not a directory, otherwise delegate
to the backend. The backend state is threaded; on the throw branch it is
returned untouched, as in the source where the throw precedes the delegation. -/
def BasicFileMonitorService.addPath (st : PathStatus) (path regexMatch : String)
    (impl : BackendState) : Except ThrownError Nat × BackendState :=
  if ! st.isDirectory then
    (Except.error (invalidPathError path), impl)
  else
    let r := BackendState.addPath impl path regexMatch
    (Except.ok r.1, r.2)

/-- Shallow embedding of BasicFileMonitorService::addFile (header lines
100-113): throw InvalidPath if the path is not a regular file, then throw
UnresolvedSymlink if it is a symlink whose read_symlink target differs from
the path, otherwise delegate to the backend. -/
def BasicFileMonitorService.addFile (st : PathStatus) (path : String)
    (impl : BackendState) : Except ThrownError Nat × BackendState :=
  if ! st.isRegularFile then
    (Except.error (invalidPathError path), impl)
  else if st.isSymlink && st.symlinkTarget != path then
    (Except.error (unresolvedSymlinkError path), impl)
  else
    let r := BackendState.addFile impl path
    (Except.ok r.1, r.2)

/-- Shallow embedding of BasicFileMonitorService::monitor (header lines
123-126): a direct delegation to the backend's blocking popFrontEvent on the
calling thread. none models a call that is still blocked. -/
def BasicFileMonitorService.monitor (impl : BackendState) :
    Option ((FileMonitorEvent × ErrorCode) × BackendState) :=
  BackendState.popFrontEvent impl

/-- Effects performed by BasicFileMonitorService::destroy, in source order. -/
inductive ServiceEffect
  | backendDestroy
  | ownershipRelease
  deriving DecidableEq

/-- The registry's view for destroy: the shared_ptr slot holding the backend
(some = strong reference held) and a log of the effects performed. -/
structure RegistryState where
  impl : Option BackendState
  log : List ServiceEffect
  deriving DecidableEq

/-- Shallow embedding of BasicFileMonitorService::destroy (header lines
80-87): first impl->destroy(), interrupting any blocked pop, then
impl.reset(), releasing the strong reference to the backend. -/
def BasicFileMonitorService.destroy (r : RegistryState) : RegistryState :=
  let r1 : RegistryState :=
    { impl := r.impl.map BackendState.destroy,
      log := r.log ++ [ServiceEffect.backendDestroy] }
  { impl := none, log := r1.log ++ [ServiceEffect.ownershipRelease] }

/-- Shallow embedding of MonitorOperation::operator() (header lines 137-150),
parametrized by the backend's popFrontEvent (an external call whose returned
pair is an input here). The argument lockResult is the outcome of locking the
weak observation mImpl. The result is the list of completions (error, event)
posted to the host event loop, together with the list of backend calls the
execution performs. -/
def MonitorOperation.run (σ : Type) (popFrontEvent : σ → FileMonitorEvent × ErrorCode)
    (lockResult : Option σ) :
    List (ErrorCode × FileMonitorEvent) × List BackendCall :=
  match lockResult with
  | some impl =>
    let r := popFrontEvent impl
    ([(r.2, r.1)], [BackendCall.popFrontEvent])
  | none =>
    ([(ErrorCode.operationAborted, emptyEvent)], [])

/-- Completions among a post list that belong to operation index i. -/
def postsOf (posts : List (Nat × ErrorCode × FileMonitorEvent)) (i : Nat) :
    List (ErrorCode × FileMonitorEvent) :=
  posts.filterMap fun p => if p.1 = i then some p.2 else none

theorem postsOf_append (l m : List (Nat × ErrorCode × FileMonitorEvent))
    (i : Nat) : postsOf (l ++ m) i = postsOf l i ++ postsOf m i := by
  simp [postsOf]

theorem postsOf_single_eq (i : Nat) (ec : ErrorCode) (ev : FileMonitorEvent) :
    postsOf [(i, ec, ev)] i = [(ec, ev)] := by
  simp [postsOf]

theorem postsOf_single_ne (j i : Nat) (ec : ErrorCode) (ev : FileMonitorEvent)
    (h : j ≠ i) : postsOf [(j, ec, ev)] i = [] := by
  simp [postsOf, h]

/-- Status of one Pending Operation, following the spec's per-operation state
machine: queued on the worker, running (weak lock succeeded, blocked inside
popFrontEvent), or completed with the posted (error, event) completion. -/
inductive OpStatus
  | queued
  | running
  | completed (ec : ErrorCode) (ev : FileMonitorEvent)
  deriving DecidableEq

/-- Whether an operation is still pending (queued or running), i.e. its
completion has not yet been posted. -/
def OpStatus.isPending : OpStatus → Bool
  | OpStatus.queued => true
  | OpStatus.running => true
  | OpStatus.completed _ _ => false

/-- Interleaved-execution state of the service: whether the backend is still
alive (destroy kills the backend and releases the registry's strong
reference; their relative order inside destroy is covered separately by the
sequential embedding of destroy), the backend's pending event queue, the
Pending Operations by index, and the completions posted so far to the host
event loop, tagged with the posting operation's index. -/
structure SysState where
  backendAlive : Bool
  events : List (FileMonitorEvent × ErrorCode)
  ops : List OpStatus
  posts : List (Nat × ErrorCode × FileMonitorEvent)
  deriving DecidableEq

/-- Interleaving actions: an asyncMonitor submission, the worker starting
operation i (the weak-lock step of MonitorOperation::operator()), the
blocking popFrontEvent of operation i returning (followed at once by its
post), and the caller's destroy. -/
inductive SchedAction
  | submit
  | start (i : Nat)
  | finish (i : Nat)
  | destroy
  deriving DecidableEq

/-- One interleaving step; none means the action is not enabled. The relation
over-approximates the real scheduler: it does not impose the single-worker
FIFO discipline, so every schedule the one-worker loop can produce is among
the traces considered. Start with a live backend moves the operation into its
blocking pop; start with a dead backend is operator()'s abort branch, posting
(operation_aborted, FileMonitorEvent()) at once. Finish with a live backend
delivers the front backend event; finish with a dead backend is the
destruction-triggered wake of the Backend Contract, posting the Aborted
completion. -/
def SysState.step (s : SysState) : SchedAction → Option SysState
  | SchedAction.submit => some { s with ops := s.ops ++ [OpStatus.queued] }
  | SchedAction.start i =>
    match s.ops[i]? with
    | some OpStatus.queued =>
      if s.backendAlive then
        some { s with ops := s.ops.set i OpStatus.running }
      else
        some { s with
          ops := s.ops.set i
            (OpStatus.completed ErrorCode.operationAborted emptyEvent),
          posts := s.posts ++ [(i, ErrorCode.operationAborted, emptyEvent)] }
    | _ => none
  | SchedAction.finish i =>
    match s.ops[i]? with
    | some OpStatus.running =>
      if s.backendAlive then
        match s.events with
        | [] => none
        | (ev, ec) :: rest =>
          some { s with
            events := rest,
            ops := s.ops.set i (OpStatus.completed ec ev),
            posts := s.posts ++ [(i, ec, ev)] }
      else
        some { s with
          ops := s.ops.set i
            (OpStatus.completed ErrorCode.operationAborted emptyEvent),
          posts := s.posts ++ [(i, ErrorCode.operationAborted, emptyEvent)] }
    | _ => none
  | SchedAction.destroy =>
    if s.backendAlive then some { s with backendAlive := false } else none

/-- Run a list of interleaving actions from a state; none if some action is
not enabled at its turn. -/
def SysState.runTrace (s : SysState) : List SchedAction → Option SysState
  | [] => some s
  | a :: rest =>
    match s.step a with
    | some s1 => s1.runTrace rest
    | none => none

/-- The completions posted to the host event loop on behalf of operation i,
in posting order. -/
def SysState.postsFor (s : SysState) (i : Nat) :
    List (ErrorCode × FileMonitorEvent) :=
  postsOf s.posts i

/-- Whether every operation has had its completion posted. -/
def SysState.allCompleted (s : SysState) : Bool :=
  s.ops.all fun o => ! o.isPending

/-- The Aborted completion pair posted on the abort paths. -/
def abortedPost : ErrorCode × FileMonitorEvent :=
  (ErrorCode.operationAborted, emptyEvent)

theorem invalidEntryMessage_ne_unresolvedSymlinkMessage (p q : String) :
    invalidEntryMessage p ≠ unresolvedSymlinkMessage q := by
  intro h
  have hne1 : ("\" is not a valid file or directory entry" : String).data ≠ [] := by
    decide
  have hne2 : ("\" this path is a symlink and must be resolved" : String).data ≠ [] := by
    decide
  have h1 : (invalidEntryMessage p).data.getLast? = some 'y' := by
    unfold invalidEntryMessage
    rw [String.data_append, List.getLast?_append_of_ne_nil _ hne1]
    decide
  have h2 : (unresolvedSymlinkMessage q).data.getLast? = some 'd' := by
    unfold unresolvedSymlinkMessage
    rw [String.data_append, List.getLast?_append_of_ne_nil _ hne2]
    decide
  rw [h, h2] at h1
  exact absurd h1 (by decide)

theorem invalidPathError_ne_unresolvedSymlinkError (p q : String) :
    invalidPathError p ≠ unresolvedSymlinkError q := by
  intro h
  exact invalidEntryMessage_ne_unresolvedSymlinkMessage p q
    (congrArg ThrownError.message h)

theorem dead_step_invariant (s s1 : SysState) (a : SchedAction)
    (hd : s.backendAlive = false) (h : s.step a = some s1) :
    s1.backendAlive = false ∧
    ∀ i o, s.ops[i]? = some o →
      ((o.isPending = true →
          (s1.ops[i]? = some o ∧ s1.postsFor i = s.postsFor i) ∨
          (s1.ops[i]? =
              some (OpStatus.completed ErrorCode.operationAborted emptyEvent) ∧
            s1.postsFor i = s.postsFor i ++ [abortedPost])) ∧
       (o.isPending = false →
          s1.ops[i]? = some o ∧ s1.postsFor i = s.postsFor i)) := by
  cases a with
  | submit =>
    simp only [SysState.step, Option.some.injEq] at h
    subst h
    refine ⟨hd, fun i o hget => ?_⟩
    have hlt : i < s.ops.length := (List.getElem?_eq_some.mp hget).1
    have hsame : (s.ops ++ [OpStatus.queued])[i]? = some o := by
      rw [List.getElem?_append_left hlt]; exact hget
    exact ⟨fun _ => Or.inl ⟨hsame, rfl⟩, fun _ => ⟨hsame, rfl⟩⟩
  | start j =>
    simp only [SysState.step] at h
    cases hget0 : s.ops[j]? with
    | none => rw [hget0] at h; exact absurd h (by simp)
    | some o0 =>
      rw [hget0] at h
      cases o0 with
      | running => exact absurd h (by simp)
      | completed ec ev => exact absurd h (by simp)
      | queued =>
        rw [hd] at h
        simp only [Bool.false_eq_true, if_false, Option.some.injEq] at h
        subst h
        refine ⟨rfl, fun i o hget => ?_⟩
        have hlt0 : j < s.ops.length := (List.getElem?_eq_some.mp hget0).1
        by_cases hij : i = j
        · subst hij
          have ho : o = OpStatus.queued := by
            have := hget0.symm.trans hget
            exact (Option.some.injEq _ _ ▸ this).symm
          subst ho
          have hset : (s.ops.set i
              (OpStatus.completed ErrorCode.operationAborted emptyEvent))[i]? =
              some (OpStatus.completed ErrorCode.operationAborted emptyEvent) :=
            List.getElem?_set_self hlt0
          have hposts : postsOf
              (s.posts ++ [(i, ErrorCode.operationAborted, emptyEvent)]) i =
              postsOf s.posts i ++ [abortedPost] := by
            rw [postsOf_append, postsOf_single_eq]; rfl
          exact ⟨fun _ => Or.inr ⟨hset, hposts⟩, fun hfalse => by
            simp [OpStatus.isPending] at hfalse⟩
        · have hset : (s.ops.set j
              (OpStatus.completed ErrorCode.operationAborted emptyEvent))[i]? =
              some o := by
            rw [List.getElem?_set_ne (fun hc => hij hc.symm)]; exact hget
          have hposts : postsOf
              (s.posts ++ [(j, ErrorCode.operationAborted, emptyEvent)]) i =
              postsOf s.posts i := by
            rw [postsOf_append, postsOf_single_ne j i _ _ (fun hc => hij hc.symm)]
            simp
          exact ⟨fun _ => Or.inl ⟨hset, hposts⟩, fun _ => ⟨hset, hposts⟩⟩
  | finish j =>
    simp only [SysState.step] at h
    cases hget0 : s.ops[j]? with
    | none => rw [hget0] at h; exact absurd h (by simp)
    | some o0 =>
      rw [hget0] at h
      cases o0 with
      | queued => exact absurd h (by simp)
      | completed ec ev => exact absurd h (by simp)
      | running =>
        rw [hd] at h
        simp only [Bool.false_eq_true, if_false, Option.some.injEq] at h
        subst h
        refine ⟨rfl, fun i o hget => ?_⟩
        have hlt0 : j < s.ops.length := (List.getElem?_eq_some.mp hget0).1
        by_cases hij : i = j
        · subst hij
          have ho : o = OpStatus.running := by
            have := hget0.symm.trans hget
            exact (Option.some.injEq _ _ ▸ this).symm
          subst ho
          have hset : (s.ops.set i
              (OpStatus.completed ErrorCode.operationAborted emptyEvent))[i]? =
              some (OpStatus.completed ErrorCode.operationAborted emptyEvent) :=
            List.getElem?_set_self hlt0
          have hposts : postsOf
              (s.posts ++ [(i, ErrorCode.operationAborted, emptyEvent)]) i =
              postsOf s.posts i ++ [abortedPost] := by
            rw [postsOf_append, postsOf_single_eq]; rfl
          exact ⟨fun _ => Or.inr ⟨hset, hposts⟩, fun hfalse => by
            simp [OpStatus.isPending] at hfalse⟩
        · have hset : (s.ops.set j
              (OpStatus.completed ErrorCode.operationAborted emptyEvent))[i]? =
              some o := by
            rw [List.getElem?_set_ne (fun hc => hij hc.symm)]; exact hget
          have hposts : postsOf
              (s.posts ++ [(j, ErrorCode.operationAborted, emptyEvent)]) i =
              postsOf s.posts i := by
            rw [postsOf_append, postsOf_single_ne j i _ _ (fun hc => hij hc.symm)]
            simp
          exact ⟨fun _ => Or.inl ⟨hset, hposts⟩, fun _ => ⟨hset, hposts⟩⟩
  | destroy =>
    rw [SysState.step, hd] at h
    exact absurd h (by simp)

theorem dead_trace_invariant (acts : List SchedAction) :
    ∀ s sf : SysState, s.backendAlive = false → s.runTrace acts = some sf →
    sf.backendAlive = false ∧
    ∀ i o, s.ops[i]? = some o →
      ((o.isPending = true →
          (∃ o2, sf.ops[i]? = some o2 ∧ o2.isPending = true ∧
            sf.postsFor i = s.postsFor i) ∨
          (sf.ops[i]? =
              some (OpStatus.completed ErrorCode.operationAborted emptyEvent) ∧
            sf.postsFor i = s.postsFor i ++ [abortedPost])) ∧
       (o.isPending = false →
          sf.ops[i]? = some o ∧ sf.postsFor i = s.postsFor i)) := by
  induction acts with
  | nil =>
    intro s sf hd hrun
    simp only [SysState.runTrace, Option.some.injEq] at hrun
    subst hrun
    exact ⟨hd, fun i o hget =>
      ⟨fun hp => Or.inl ⟨o, hget, hp, rfl⟩, fun _ => ⟨hget, rfl⟩⟩⟩
  | cons a rest ih =>
    intro s sf hd hrun
    simp only [SysState.runTrace] at hrun
    cases hstep : s.step a with
    | none => rw [hstep] at hrun; exact absurd hrun (by simp)
    | some s1 =>
      rw [hstep] at hrun
      obtain ⟨hd1, hstepinv⟩ := dead_step_invariant s s1 a hd hstep
      obtain ⟨hdf, hinv⟩ := ih s1 sf hd1 hrun
      refine ⟨hdf, fun i o hget => ?_⟩
      obtain ⟨hpend1, hdone1⟩ := hstepinv i o hget
      constructor
      · intro hp
        cases hpend1 hp with
        | inl hcase =>
          obtain ⟨hsame, hposts⟩ := hcase
          obtain ⟨hpend2, hdone2⟩ := hinv i o hsame
          cases hpend2 hp with
          | inl hcase2 =>
            obtain ⟨o2, h1, h2, h3⟩ := hcase2
            exact Or.inl ⟨o2, h1, h2, h3.trans hposts⟩
          | inr hcase2 =>
            exact Or.inr ⟨hcase2.1, by rw [hcase2.2, hposts]⟩
        | inr hcase =>
          obtain ⟨hcomp, hposts⟩ := hcase
          obtain ⟨_, hdone2⟩ := hinv i _ hcomp
          obtain ⟨h1, h2⟩ := hdone2 rfl
          exact Or.inr ⟨h1, by rw [h2, hposts]⟩
      · intro hnp
        obtain ⟨hsame, hposts⟩ := hdone1 hnp
        obtain ⟨_, hdone2⟩ := hinv i o hsame
        obtain ⟨h1, h2⟩ := hdone2 hnp
        exact ⟨h1, h2.trans hposts⟩

example :
    MonitorOperation.run Unit (fun _ => (emptyEvent, ErrorCode.success)) none =
      ([(ErrorCode.operationAborted, emptyEvent)], []) := rfl

example :
    SysState.runTrace
      { backendAlive := false, events := [], ops := [OpStatus.queued],
        posts := [] } [SchedAction.start 0] =
      some { backendAlive := false, events := [],
             ops := [OpStatus.completed ErrorCode.operationAborted emptyEvent],
             posts := [(0, ErrorCode.operationAborted, emptyEvent)] } := rfl

example :
    SysState.runTrace
      { backendAlive := true, events := [(emptyEvent, ErrorCode.success)],
        ops := [OpStatus.queued], posts := [] }
      [SchedAction.start 0, SchedAction.finish 0] =
      some { backendAlive := true, events := [],
             ops := [OpStatus.completed ErrorCode.success emptyEvent],
             posts := [(0, ErrorCode.success, emptyEvent)] } := rfl

example :
    (BasicFileMonitorService.addFile
      { isDirectory := true, isRegularFile := false, isSymlink := true,
        symlinkTarget := "/elsewhere" } "/tmp/link"
      { destroyed := false, events := [], nextHandle := 0, watches := [],
        calls := [] }).1 =
      Except.error (invalidPathError "/tmp/link") := rfl

/-- A fresh live backend instance, used as a concrete input. -/
def freshBackend : BackendState :=
  { destroyed := false, events := [], nextHandle := 0, watches := [],
    calls := [] }

/-- C1: every execution of MonitorOperation::operator() posts exactly one
completion to the host event loop — one on the success branch where the weak
observation of the backend resolves, one on the abort branch where it does
not, and never zero or two. -/
theorem monitorOperation_posts_exactly_once (σ : Type)
    (popFrontEvent : σ → FileMonitorEvent × ErrorCode)
    (lockResult : Option σ) :
    ((MonitorOperation.run σ popFrontEvent lockResult).1).length = 1 := by
  cases lockResult <;> rfl

/-- C2: when the weak observation fails to resolve,
MonitorOperation::operator() posts the completion (operation_aborted,
default-constructed event) and performs no backend call at all; when it
resolves, it instead posts exactly the (error, event) pair returned by the
backend's blocking popFrontEvent, that call being the only backend operation
performed. -/
theorem monitorOperation_branch_completions (σ : Type)
    (popFrontEvent : σ → FileMonitorEvent × ErrorCode) :
    MonitorOperation.run σ popFrontEvent none =
      ([(ErrorCode.operationAborted, emptyEvent)], []) ∧
    ∀ impl : σ, MonitorOperation.run σ popFrontEvent (some impl) =
      ([((popFrontEvent impl).2, (popFrontEvent impl).1)],
        [BackendCall.popFrontEvent]) :=
  ⟨rfl, fun _ => rfl⟩

/-- C3: in any interleaving in which destroy has been issued (the backend is
no longer alive) and which runs until every operation's completion has been
posted, each operation pending (queued or running) at the destroy point
receives exactly one further posted completion, and it is the Aborted one —
no pending handler is skipped and none is posted twice. -/
theorem destroy_aborts_each_pending_exactly_once
    (s0 sf : SysState) (acts : List SchedAction)
    (hdead : s0.backendAlive = false)
    (hrun : s0.runTrace acts = some sf)
    (hquiescent : sf.allCompleted = true)
    (i : Nat) (o : OpStatus) (hop : s0.ops[i]? = some o)
    (hpending : o.isPending = true) :
    sf.postsFor i = s0.postsFor i ++ [abortedPost] ∧
    sf.ops[i]? =
      some (OpStatus.completed ErrorCode.operationAborted emptyEvent) := by
  obtain ⟨hdf, hinv⟩ := dead_trace_invariant acts s0 sf hdead hrun
  obtain ⟨hp, _⟩ := hinv i o hop
  cases hp hpending with
  | inl hcase =>
    obtain ⟨o2, h1, h2, _⟩ := hcase
    have hmem : o2 ∈ sf.ops := List.getElem?_mem h1
    simp only [SysState.allCompleted] at hquiescent
    have hall := List.all_eq_true.mp hquiescent o2 hmem
    simp [h2] at hall
  | inr hcase => exact ⟨hcase.2, hcase.1⟩

/-- Concrete pre-destroy state for the C3 witness: one queued and one running
operation at the moment the backend dies. -/
def c3StartState : SysState :=
  { backendAlive := false, events := [],
    ops := [OpStatus.queued, OpStatus.running], posts := [] }

/-- Concrete quiescent state reached from c3StartState by draining both
operations after the destroy. -/
def c3FinalState : SysState :=
  { backendAlive := false, events := [],
    ops := [OpStatus.completed ErrorCode.operationAborted emptyEvent,
            OpStatus.completed ErrorCode.operationAborted emptyEvent],
    posts := [(0, ErrorCode.operationAborted, emptyEvent),
              (1, ErrorCode.operationAborted, emptyEvent)] }

/-- Witness for C3: the queued operation of c3StartState is drained after the
destroy and gets exactly the one Aborted completion. -/
theorem destroy_aborts_each_pending_exactly_once_witness :
    c3FinalState.postsFor 0 = c3StartState.postsFor 0 ++ [abortedPost] ∧
    c3FinalState.ops[0]? =
      some (OpStatus.completed ErrorCode.operationAborted emptyEvent) :=
  destroy_aborts_each_pending_exactly_once c3StartState c3FinalState
    [SchedAction.start 0, SchedAction.finish 1] rfl rfl rfl 0 OpStatus.queued
    rfl rfl

/-- C4: destroy always performs its two steps in source order — first the
backend instance's own destroy (after which a blocking popFrontEvent returns
at once instead of blocking), and only afterwards the release of the
registry's strong ownership; the release never precedes the backend destroy. -/
theorem destroy_backend_then_release (r : RegistryState) :
    (BasicFileMonitorService.destroy r).log =
      r.log ++ [ServiceEffect.backendDestroy, ServiceEffect.ownershipRelease] ∧
    (BasicFileMonitorService.destroy r).impl = none ∧
    ∀ b : BackendState,
      ((BackendState.destroy b).popFrontEvent).isSome = true := by
  refine ⟨?_, rfl, fun b => ?_⟩
  · simp [BasicFileMonitorService.destroy]
  · simp [BackendState.destroy, BackendState.popFrontEvent]

/-- Concrete input refuting C5 as stated: a symlink to a directory, i.e. a
path that is a symlink whose target differs from it but is not a regular
file. -/
def symlinkToDirStatus : PathStatus :=
  { isDirectory := true, isRegularFile := false, isSymlink := true,
    symlinkTarget := "/target/dir" }

/-- C5 counterexample: at the path "/tmp/link", a symlink whose target
"/target/dir" differs from it, addFile raises InvalidPath, not
UnresolvedSymlink — refuting the claim that every symlink with a differing
target raises UnresolvedSymlink. -/
theorem addFile_unresolved_symlink_counterexample :
    symlinkToDirStatus.isSymlink = true ∧
    symlinkToDirStatus.symlinkTarget ≠ "/tmp/link" ∧
    (BasicFileMonitorService.addFile symlinkToDirStatus "/tmp/link"
        freshBackend).1 ≠
      Except.error (unresolvedSymlinkError "/tmp/link") ∧
    (BasicFileMonitorService.addFile symlinkToDirStatus "/tmp/link"
        freshBackend).1 =
      Except.error (invalidPathError "/tmp/link") := by
  refine ⟨rfl, by decide, ?_, rfl⟩
  intro h
  have h2 : (Except.error (invalidPathError "/tmp/link") :
      Except ThrownError Nat) =
      Except.error (unresolvedSymlinkError "/tmp/link") := h
  exact invalidPathError_ne_unresolvedSymlinkError "/tmp/link" "/tmp/link"
    (Except.error.inj h2)

/-- C5 (amended): for every path that is a regular file (the filesystem
queries resolve symlinks), if it is a symlink whose target differs from the
path then addFile raises UnresolvedSymlink, returns no Watch Handle and
leaves the backend untouched; and addFile delegates to the backend only when
the path is not a symlink whose target differs from it. -/
theorem addFile_unresolved_symlink_amended (st : PathStatus) (path : String)
    (impl : BackendState) :
    (st.isRegularFile = true → st.isSymlink = true →
      st.symlinkTarget ≠ path →
      BasicFileMonitorService.addFile st path impl =
        (Except.error (unresolvedSymlinkError path), impl)) ∧
    (∀ h impl2, BasicFileMonitorService.addFile st path impl =
        (Except.ok h, impl2) →
      ¬(st.isSymlink = true ∧ st.symlinkTarget ≠ path)) := by
  constructor
  · intro hreg hsym hne
    simp [BasicFileMonitorService.addFile, hreg, hsym, hne]
  · intro h impl2 hok hcontra
    obtain ⟨hsym, hne⟩ := hcontra
    by_cases hreg : st.isRegularFile = true
    · simp [BasicFileMonitorService.addFile, hreg, hsym, hne] at hok
    · simp [BasicFileMonitorService.addFile, hreg] at hok

/-- Concrete input for the amended C5: a symlink resolving to a regular file
elsewhere. -/
def symlinkToFileStatus : PathStatus :=
  { isDirectory := false, isRegularFile := true, isSymlink := true,
    symlinkTarget := "/target/file" }

/-- Witness for the amended C5 at "/tmp/link". -/
theorem addFile_unresolved_symlink_amended_witness :
    BasicFileMonitorService.addFile symlinkToFileStatus "/tmp/link"
      freshBackend =
      (Except.error (unresolvedSymlinkError "/tmp/link"), freshBackend) :=
  (addFile_unresolved_symlink_amended symlinkToFileStatus "/tmp/link"
    freshBackend).1 rfl rfl (by decide)

/-- C6: for every path that is not a directory, addPath raises InvalidPath,
allocates no Watch Handle, and leaves the registry and backend state
unchanged — the backend's addPath is not invoked on the failure branch. -/
theorem addPath_non_directory_invalid_path (st : PathStatus)
    (path regexMatch : String) (impl : BackendState)
    (h : st.isDirectory = false) :
    BasicFileMonitorService.addPath st path regexMatch impl =
      (Except.error (invalidPathError path), impl) := by
  simp [BasicFileMonitorService.addPath, h]

/-- Witness for C6 at a concrete non-directory path. -/
theorem addPath_non_directory_invalid_path_witness :
    BasicFileMonitorService.addPath
      { isDirectory := false, isRegularFile := true, isSymlink := false,
        symlinkTarget := "" } "/tmp/file.txt" ".*i" freshBackend =
      (Except.error (invalidPathError "/tmp/file.txt"), freshBackend) :=
  addPath_non_directory_invalid_path _ "/tmp/file.txt" ".*i" freshBackend rfl

/-- C7: for every path that is not a regular file (a nonexistent path
included), addFile raises InvalidPath synchronously at the call site,
produces no handle, and does not invoke the backend. -/
theorem addFile_non_regular_invalid_path (st : PathStatus) (path : String)
    (impl : BackendState) (h : st.isRegularFile = false) :
    BasicFileMonitorService.addFile st path impl =
      (Except.error (invalidPathError path), impl) := by
  simp [BasicFileMonitorService.addFile, h]

/-- Witness for C7: addFile on the nonexistent "/tmp/nonexistent" (every
filesystem predicate false) raises InvalidPath and leaves the backend
untouched. -/
theorem addFile_non_regular_invalid_path_witness :
    BasicFileMonitorService.addFile
      { isDirectory := false, isRegularFile := false, isSymlink := false,
        symlinkTarget := "" } "/tmp/nonexistent" freshBackend =
      (Except.error (invalidPathError "/tmp/nonexistent"), freshBackend) :=
  addFile_non_regular_invalid_path _ "/tmp/nonexistent" freshBackend rfl

/-- C8: the InvalidPath and UnresolvedSymlink errors are distinct in the
caller-visible error taxonomy, whatever the paths involved: a synchronous
registration failure identifies which precondition was violated. -/
theorem invalidPath_distinct_from_unresolvedSymlink (p q : String) :
    invalidPathError p ≠ unresolvedSymlinkError q :=
  invalidPathError_ne_unresolvedSymlinkError p q

/-- C9: monitor returns exactly the (event, error) pair produced by one
invocation of the backend's blocking popFrontEvent, executed directly on the
calling thread: it is the identity delegation, and whenever the pop returns —
front event on a live backend, Aborted on a destroyed one — monitor returns
precisely that pair with exactly one popFrontEvent call logged, with no
transformation, queueing or worker involvement. -/
theorem monitor_delegates_popFrontEvent (impl : BackendState) :
    BasicFileMonitorService.monitor impl = BackendState.popFrontEvent impl ∧
    (∀ ev ec rest, impl.destroyed = false →
      impl.events = (ev, ec) :: rest →
      BasicFileMonitorService.monitor impl =
        some ((ev, ec),
          { impl with events := rest,
                      calls := impl.calls ++ [BackendCall.popFrontEvent] })) ∧
    (impl.destroyed = true →
      BasicFileMonitorService.monitor impl =
        some ((emptyEvent, ErrorCode.operationAborted),
          { impl with calls := impl.calls ++ [BackendCall.popFrontEvent] })) := by
  refine ⟨rfl, fun ev ec rest hd he => ?_, fun hd => ?_⟩
  · simp [BasicFileMonitorService.monitor, BackendState.popFrontEvent, hd, he]
  · simp [BasicFileMonitorService.monitor, BackendState.popFrontEvent, hd]

/-- A live backend holding one modified-file event, for the C9 witness. -/
def oneEventBackend : BackendState :=
  { destroyed := false,
    events := [({ handle := 7, path := "/tmp/a.txt",
                  kind := EventKind.modified, errorInfo := none },
                ErrorCode.success)],
    nextHandle := 8, watches := [(7, "/tmp/a.txt")], calls := [] }

/-- Witness for C9: monitor on oneEventBackend returns its front event pair
untransformed and logs the single popFrontEvent call. -/
theorem monitor_delegates_popFrontEvent_witness :
    BasicFileMonitorService.monitor oneEventBackend =
      some (({ handle := 7, path := "/tmp/a.txt",
               kind := EventKind.modified, errorInfo := none },
             ErrorCode.success),
        { destroyed := false, events := [], nextHandle := 8,
          watches := [(7, "/tmp/a.txt")],
          calls := [BackendCall.popFrontEvent] }) :=
  (monitor_delegates_popFrontEvent oneEventBackend).2.1 _ _ _ rfl rfl

/-- C10: addFile evaluates its regular-file precondition before its symlink
precondition: every path that is not a regular file raises InvalidPath, even
when it is also a symlink with a differing target, and UnresolvedSymlink is
raised only when the path is a regular file and a symlink whose target
differs from it. -/
theorem addFile_regular_file_check_precedes_symlink_check (st : PathStatus)
    (path : String) (impl : BackendState) :
    (st.isRegularFile = false →
      BasicFileMonitorService.addFile st path impl =
        (Except.error (invalidPathError path), impl)) ∧
    ((BasicFileMonitorService.addFile st path impl).1 =
        Except.error (unresolvedSymlinkError path) →
      st.isRegularFile = true ∧ st.isSymlink = true ∧
        st.symlinkTarget ≠ path) := by
  constructor
  · intro h
    simp [BasicFileMonitorService.addFile, h]
  · intro h
    by_cases hreg : st.isRegularFile = true
    · by_cases hsym : st.isSymlink = true
      · by_cases hne : st.symlinkTarget = path
        · simp [BasicFileMonitorService.addFile, hreg, hsym, hne] at h
        · exact ⟨hreg, hsym, hne⟩
      · simp [BasicFileMonitorService.addFile, hreg, hsym] at h
    · rw [Bool.not_eq_true] at hreg
      simp [BasicFileMonitorService.addFile, hreg] at h
      exact absurd h (invalidPathError_ne_unresolvedSymlinkError path path)

/-- A dangling symlink: not a regular file, target differs from the path. -/
def danglingSymlinkStatus : PathStatus :=
  { isDirectory := false, isRegularFile := false, isSymlink := true,
    symlinkTarget := "/gone" }

/-- Witness for C10: the dangling symlink at "/tmp/dangling" gets
InvalidPath. -/
theorem addFile_regular_file_check_precedes_symlink_check_witness :
    BasicFileMonitorService.addFile danglingSymlinkStatus "/tmp/dangling"
      freshBackend =
      (Except.error (invalidPathError "/tmp/dangling"), freshBackend) :=
  (addFile_regular_file_check_precedes_symlink_check danglingSymlinkStatus
    "/tmp/dangling" freshBackend).1 rfl
